import Mathlib

/-!
# Verification of `run_spec.py` (zigsh conformance test runner)

This file gives a shallow embedding of `run_spec.py` and proves/refutes the
frozen claims about it.

Modelling conventions:
* a file is a `List Line` where `Line := List Char`; as produced by Python's
  `readlines()`, each line normally ends in `'\n'` and contains no internal
  newline, but the definitions are total on arbitrary line lists;
* Python's `re` patterns used by the script are translated into explicit
  character-list functions (the patterns involved are star-free up to the
  `(/\w+)*` dialect-variant groups and the `\S*`/`\S+` runs, whose
  backtracking semantics are resolved deterministically below and noted at
  each matcher);
* character classes `\w`, `\d` and `str.strip` whitespace are modelled at
  their ASCII meaning (the spec files are ASCII text);
* `json.loads` on a quoted string is modelled by `jsonUnescape`;
* the subprocess execution in `run_case` is an external effect and is passed
  in as an `ExecResult` value (timeout / launch error / completed run).
-/

abbrev Line := List Char

/-- Python `s.startswith(pre)`: `pyStartswith pre s`. -/
def pyStartswith : Line → Line → Bool
  | [], _ => true
  | _ :: _, [] => false
  | p :: ps, c :: cs => if p = c then pyStartswith ps cs else false

/-- Python `s.rstrip("\n")`: remove all trailing newline characters. -/
def rstripNl (l : Line) : Line :=
  ((l.reverse).dropWhile (fun c => c = '\n')).reverse

/-- Python whitespace for `str.strip()` (ASCII part). -/
def isPyWs (c : Char) : Bool :=
  c = ' ' || c = '\t' || c = '\n' || c = '\r' || c = '\x0b' || c = '\x0c'

/-- Python `s.strip()` (ASCII whitespace). -/
def pyStrip (l : Line) : Line :=
  (((l.dropWhile isPyWs).reverse).dropWhile isPyWs).reverse

/-- Python regex `\w` (ASCII part). -/
def isWordC (c : Char) : Bool :=
  ('a' ≤ c && c ≤ 'z') || ('A' ≤ c && c ≤ 'Z') || ('0' ≤ c && c ≤ '9') || c = '_'

/-- Python regex `\d` (ASCII part). -/
def isDigitC (c : Char) : Bool := '0' ≤ c && c ≤ '9'

/-- Accumulator worker for `digitsToNat`. -/
def digitsAcc : Nat → Line → Nat
  | acc, [] => acc
  | acc, c :: cs => digitsAcc (10 * acc + (c.toNat - 48)) cs

/-- `int()` on a digit string. -/
def digitsToNat (l : Line) : Nat := digitsAcc 0 l

/-- Fueled worker for `skipGroups` (fuel bounds the number of characters
consumed, so `length` fuel always suffices). -/
def skipGroupsF : Nat → Line → Line
  | 0, l => l
  | fuel + 1, l =>
    match l with
    | '/' :: c :: rest =>
      if isWordC c then skipGroupsF fuel (rest.dropWhile isWordC) else l
    | _ => l

/-- Consume the maximal prefix matching `(/\w+)*` and return the remainder.
The regex group is deterministic here: each `/`-group must be followed by a
non-empty word-character run, runs end at the first non-word character, and
the characters that may follow the group in every pattern of the script
(`' '`) are not word characters, so no backtracking can produce a different
remainder. -/
def skipGroups (l : Line) : Line := skipGroupsF l.length l

/-- `re.match(r"^## (OK|BUG\S*|N-I) ", line)` as a Boolean.  For the
`BUG\S*` alternative the pattern matches exactly when the first whitespace
character after `"## BUG"` exists and is a space. -/
def firstWsIsSpace : Line → Bool
  | [] => false
  | c :: cs => if isPyWs c then c = ' ' else firstWsIsSpace cs

def matchA (l : Line) : Bool :=
  pyStartswith "## OK ".toList l || pyStartswith "## N-I ".toList l ||
    (pyStartswith "## BUG".toList l && firstWsIsSpace (l.drop 6))

/-- `re.match(r"^## (OK|BUG) dash(/\w+)* STDOUT:", ln)` (line 63). -/
def matchB (l : Line) : Bool :=
  if pyStartswith "## OK dash".toList l then
    pyStartswith " STDOUT:".toList (skipGroups (l.drop 10))
  else if pyStartswith "## BUG dash".toList l then
    pyStartswith " STDOUT:".toList (skipGroups (l.drop 11))
  else false

/-- `re.match(r"^## N-I dash(/\w+)* STDOUT:", ln)` (line 73). -/
def matchC (l : Line) : Bool :=
  pyStartswith "## N-I dash".toList l &&
    pyStartswith " STDOUT:".toList (skipGroups (l.drop 11))

/-- `re.match(r"^## (OK|BUG\S*|N-I) \S+ STDOUT:", ln)` (line 81, positive
part).  The first token after `"## "` must be `OK`, `N-I`, or start with
`BUG`; it must be followed by a single space, a non-empty non-whitespace
token, and then `" STDOUT:"`. -/
def matchDpos (l : Line) : Bool :=
  pyStartswith "## ".toList l &&
    (let t := l.drop 3
     let tok1 := t.takeWhile (fun c => !isPyWs c)
     (tok1 = "OK".toList || tok1 = "N-I".toList || pyStartswith "BUG".toList tok1) &&
       (match t.drop tok1.length with
        | ' ' :: r2 =>
          let tok2 := r2.takeWhile (fun c => !isPyWs c)
          !tok2.isEmpty && pyStartswith " STDOUT:".toList (r2.drop tok2.length)
        | _ => false))

/-- `re.match(r"^## (OK|BUG|N-I) dash(/\w+)* STDOUT:", ln)` (line 81,
negated part). -/
def matchDneg (l : Line) : Bool :=
  if pyStartswith "## OK dash".toList l then
    pyStartswith " STDOUT:".toList (skipGroups (l.drop 10))
  else if pyStartswith "## BUG dash".toList l then
    pyStartswith " STDOUT:".toList (skipGroups (l.drop 11))
  else if pyStartswith "## N-I dash".toList l then
    pyStartswith " STDOUT:".toList (skipGroups (l.drop 11))
  else false

/-- `re.match(r"^## N-I dash(/\w+)*\b", ln)` (line 88).  After `"## N-I
dash"` the word boundary holds exactly when the remainder is empty or does
not begin with a word character (a complete `/\w+` group always ends at a
word boundary, and `\b` directly after `dash` requires a non-word
continuation). -/
def matchE (l : Line) : Bool :=
  pyStartswith "## N-I dash".toList l &&
    (match l.drop 11 with
     | [] => true
     | c :: _ => !isWordC c)

/-- `re.match(r"^## code: (.*)$", ln)` (line 90); the group is the rest of
the (newline-free) line. -/
def matchF (l : Line) : Option Line :=
  if pyStartswith "## code: ".toList l then some (l.drop 9) else none

/-- `re.match(r"^## stdout: (.*)$", ln)` (line 93). -/
def matchG (l : Line) : Option Line :=
  if pyStartswith "## stdout: ".toList l then some (l.drop 11) else none

/-- `re.match(r'^## stdout-json: "(.*)"$', ln)` (line 97); the greedy group
is everything between the opening quote and the final character, which must
be a quote. -/
def matchH (l : Line) : Option Line :=
  if pyStartswith "## stdout-json: \"".toList l then
    match (l.drop 17).reverse with
    | '"' :: rev => some rev.reverse
    | _ => none
  else none

/-- `re.match(r"^## status: (\d+)$", ln)` (line 104). -/
def matchI (l : Line) : Option Nat :=
  if pyStartswith "## status: ".toList l then
    let r := l.drop 11
    if !r.isEmpty && r.all isDigitC then some (digitsToNat r) else none
  else none

/-- `re.match(r"^## BUG (bash|mksh|zsh|dash(/\w+)*)", ln)` (line 107): a
prefix match, and the `dash` alternative succeeds with zero variant
groups, so only the four literal prefixes matter. -/
def matchJ (l : Line) : Bool :=
  pyStartswith "## BUG bash".toList l || pyStartswith "## BUG mksh".toList l ||
    pyStartswith "## BUG zsh".toList l || pyStartswith "## BUG dash".toList l

/-- `re.match(r'^## BUG dash(/\w+)* stdout: (.*)$', ln)` (line 108). -/
def matchJstdout (l : Line) : Option Line :=
  if pyStartswith "## BUG dash".toList l then
    let r := skipGroups (l.drop 11)
    if pyStartswith " stdout: ".toList r then some (r.drop 9) else none
  else none

/-- `re.match(r'^## BUG dash(/\w+)* stdout-json: "(.*)"$', ln)` (line 111). -/
def matchJjson (l : Line) : Option Line :=
  if pyStartswith "## BUG dash".toList l then
    let r := skipGroups (l.drop 11)
    if pyStartswith " stdout-json: \"".toList r then
      match (r.drop 15).reverse with
      | '"' :: rev => some rev.reverse
      | _ => none
    else none
  else none

/-- `re.match(r'^## BUG dash(/\w+)* status: (\d+)$', ln)` (line 118). -/
def matchJstatus (l : Line) : Option Nat :=
  if pyStartswith "## BUG dash".toList l then
    let r := skipGroups (l.drop 11)
    if pyStartswith " status: ".toList r then
      let d := r.drop 9
      if !d.isEmpty && d.all isDigitC then some (digitsToNat d) else none
    else none
  else none

/-- `re.match(r"^## OK dash(/\w+)* stdout", ln)` (line 121). -/
def matchKhead (l : Line) : Bool :=
  pyStartswith "## OK dash".toList l &&
    pyStartswith " stdout".toList (skipGroups (l.drop 10))

/-- `re.match(r'^## OK dash(/\w+)* stdout: (.*)$', ln)` (line 122). -/
def matchKstdout (l : Line) : Option Line :=
  if pyStartswith "## OK dash".toList l then
    let r := skipGroups (l.drop 10)
    if pyStartswith " stdout: ".toList r then some (r.drop 9) else none
  else none

/-- `re.match(r'^## OK dash(/\w+)* stdout-json: "(.*)"$', ln)` (line 125). -/
def matchKjson (l : Line) : Option Line :=
  if pyStartswith "## OK dash".toList l then
    let r := skipGroups (l.drop 10)
    if pyStartswith " stdout-json: \"".toList r then
      match (r.drop 15).reverse with
      | '"' :: rev => some rev.reverse
      | _ => none
    else none
  else none

/-- `re.match(r"^## OK dash(/\w+)* status: (\d+)$", ln)` (line 132). -/
def matchL (l : Line) : Option Nat :=
  if pyStartswith "## OK dash".toList l then
    let r := skipGroups (l.drop 10)
    if pyStartswith " status: ".toList r then
      let d := r.drop 9
      if !d.isEmpty && d.all isDigitC then some (digitsToNat d) else none
    else none
  else none

/-- `re.match(r"^## N-I dash(/\w+)* status: (\d+)$", ln)` (line 135). -/
def matchM (l : Line) : Option Nat :=
  if pyStartswith "## N-I dash".toList l then
    let r := skipGroups (l.drop 11)
    if pyStartswith " status: ".toList r then
      let d := r.drop 9
      if !d.isEmpty && d.all isDigitC then some (digitsToNat d) else none
    else none
  else none

/-- Hex digit value, for `\uXXXX` escapes (by code point: `0`-`9`,
`a`-`f`, `A`-`F`). -/
def hexVal (c : Char) : Option Nat :=
  let n := c.toNat
  if 48 ≤ n && n ≤ 57 then some (n - 48)
  else if 97 ≤ n && n ≤ 102 then some (n - 87)
  else if 65 ≤ n && n ≤ 70 then some (n - 55)
  else none

/-- `json.loads('"' + s + '"')`: decode the body of a JSON string literal.
Failure (`none`) models the exception path.  An unescaped `"` inside the
body terminates the literal early and leaves trailing data, which
`json.loads` rejects; raw control characters below `0x20` are rejected;
unknown escapes are rejected.  `\uXXXX` surrogate pairs are combined; a
lone surrogate (which CPython's `json` module would accept as an
unpaired-surrogate code unit) is not representable as a Lean `Char` and is
mapped to failure. -/
def jsonUnescape : Line → Option Line
  | [] => some []
  | '"' :: _ => none
  | '\\' :: rest =>
    match rest with
    | [] => none
    | 'u' :: h1 :: h2 :: h3 :: h4 :: rs =>
      match hexVal h1, hexVal h2, hexVal h3, hexVal h4 with
      | some a, some b, some c, some d =>
        let cp := ((a * 16 + b) * 16 + c) * 16 + d
        if 0xD800 ≤ cp && cp ≤ 0xDBFF then
          match rs with
          | '\\' :: 'u' :: g1 :: g2 :: g3 :: g4 :: rs2 =>
            match hexVal g1, hexVal g2, hexVal g3, hexVal g4 with
            | some a2, some b2, some c2, some d2 =>
              let cp2 := ((a2 * 16 + b2) * 16 + c2) * 16 + d2
              if 0xDC00 ≤ cp2 && cp2 ≤ 0xDFFF then
                (Char.ofNat (0x10000 + (cp - 0xD800) * 0x400 + (cp2 - 0xDC00)) :: ·) <$>
                  jsonUnescape rs2
              else none
            | _, _, _, _ => none
          | _ => none
        else if 0xDC00 ≤ cp && cp ≤ 0xDFFF then none
        else (Char.ofNat cp :: ·) <$> jsonUnescape rs
      | _, _, _, _ => none
    | c :: rs =>
      match c with
      | '"' => ('"' :: ·) <$> jsonUnescape rs
      | '\\' => ('\\' :: ·) <$> jsonUnescape rs
      | '/' => ('/' :: ·) <$> jsonUnescape rs
      | 'b' => ('\x08' :: ·) <$> jsonUnescape rs
      | 'f' => ('\x0c' :: ·) <$> jsonUnescape rs
      | 'n' => ('\n' :: ·) <$> jsonUnescape rs
      | 'r' => ('\x0d' :: ·) <$> jsonUnescape rs
      | 't' => ('\t' :: ·) <$> jsonUnescape rs
      | _ => none
  | c :: rest =>
    if c.toNat < 0x20 then none else (c :: ·) <$> jsonUnescape rest

/-- One parsed test case (the dict appended at lines 143-149). -/
structure TestCase where
  name : Line
  code : Line
  expect_stdout : Option Line
  expect_status : Nat
  n_i_dash : Bool
deriving DecidableEq, Repr

/-- The per-case accumulator of `parse_spec_file` (lines 31-37). -/
structure AState where
  code : Line
  expect_stdout : Option Line
  expect_stdout_json : Option Line
  expect_status : Nat
  n_i_dash : Bool
deriving DecidableEq, Repr

/-- Continue condition of the four STDOUT-capture loops (lines 56, 66, 75,
83): keep a line unless it starts with `"## END"` or matches
`^## (OK|BUG\S*|N-I) ` (tested on the raw line, newline included). -/
def keepCapturing (l : Line) : Bool :=
  !pyStartswith "## END".toList l && !matchA l

/-- A STDOUT-capture loop plus the optional `"## END"` skip (lines 54-61,
and identically 64-71, 74-78, 82-86): returns the joined captured lines and
the remaining input. -/
def captureBlock (ls : List Line) : Line × List Line :=
  let block := ls.takeWhile keepCapturing
  let rest := ls.dropWhile keepCapturing
  (block.flatten,
    match rest with
    | l :: rs => if pyStartswith "## END".toList l then rs else l :: rs
    | [] => [])

/-- The fall-through chain of single-line annotation handlers
(lines 88-137), applied to the stripped line `ln`. -/
def applyInline (st : AState) (ln : Line) : AState :=
  -- line 88: `^## N-I dash(/\w+)*\b` sets the flag and falls through
  let st := if matchE ln then { st with n_i_dash := true } else st
  -- lines 90-92: `## code:` overwrites the body unconditionally
  let st := match matchF ln with
    | some a => { st with code := a ++ ['\n'] }
    | none => st
  -- lines 93-96: `## stdout:` is first-wins
  let st := match matchG ln with
    | some a =>
      if st.expect_stdout = none then { st with expect_stdout := some (a ++ ['\n']) } else st
    | none => st
  -- lines 97-103: `## stdout-json:` only tried while expect_stdout unset;
  -- decode failure is swallowed
  let st := match matchH ln with
    | some s =>
      if st.expect_stdout = none then
        match jsonUnescape s with
        | some v => { st with expect_stdout_json := some v }
        | none => st
      else st
    | none => st
  -- lines 104-106: `## status:` is last-wins
  let st := match matchI ln with
    | some k => { st with expect_status := k }
    | none => st
  -- lines 107-120: `## BUG <dialect>` family
  let st := if matchJ ln then
      let st := match matchJstdout ln with
        | some a => { st with expect_stdout := some (a ++ ['\n']) }
        | none => st
      let st := match matchJjson ln with
        | some s =>
          match jsonUnescape s with
          | some v => { st with expect_stdout_json := some v, expect_stdout := none }
          | none => st
        | none => st
      match matchJstatus ln with
      | some k => { st with expect_status := k }
      | none => st
    else st
  -- lines 121-131: `## OK dash ... stdout` family
  let st := if matchKhead ln then
      let st := match matchKstdout ln with
        | some a => { st with expect_stdout := some (a ++ ['\n']) }
        | none => st
      match matchKjson ln with
      | some s =>
        match jsonUnescape s with
        | some v => { st with expect_stdout_json := some v, expect_stdout := none }
        | none => st
      | none => st
    else st
  -- lines 132-134: `## OK dash ... status:` is last-wins
  let st := match matchL ln with
    | some k => { st with expect_status := k }
    | none => st
  -- lines 135-137: `## N-I dash ... status:` only sets the flag
  if (matchM ln).isSome then { st with n_i_dash := true } else st

/-- The annotation loop of one case (lines 49-138).  The fuel argument only
drives the structural recursion; every iteration consumes at least one
line, so any fuel `≥` the list length produces the loop's result (proved in
`annotLoopF_fuel_ge` below). -/
def annotLoopF : Nat → AState → List Line → AState × List Line
  | 0, st, ls => (st, ls)
  | _ + 1, st, [] => (st, [])
  | fuel + 1, st, l :: rest =>
    let ln := rstripNl l
    -- line 51: break at the next case header (line left unconsumed)
    if pyStartswith "#### ".toList ln then (st, l :: rest)
    -- lines 53-62: generic STDOUT block, stored unconditionally
    else if pyStartswith "## STDOUT:".toList ln then
      let p := captureBlock rest
      annotLoopF fuel { st with expect_stdout := some p.1 } p.2
    -- lines 63-72: OK/BUG dash STDOUT block, stored unconditionally
    else if matchB ln then
      let p := captureBlock rest
      annotLoopF fuel { st with expect_stdout := some p.1 } p.2
    -- lines 73-80: N-I dash STDOUT block, discarded, sets the flag
    else if matchC ln then
      let p := captureBlock rest
      annotLoopF fuel { st with n_i_dash := true } p.2
    -- lines 81-87: other-dialect outcome STDOUT block, discarded
    else if matchDpos ln && !matchDneg ln then
      let p := captureBlock rest
      annotLoopF fuel st p.2
    -- lines 88-138: single-line handlers, then i += 1
    else annotLoopF fuel (applyInline st ln) rest

/-- The annotation loop at its natural fuel. -/
def annotRun (st : AState) (ls : List Line) : AState × List Line :=
  annotLoopF ls.length st ls

/-- End-of-case fixup (lines 140-141): a pending decoded `stdout-json`
value becomes the expectation only when nothing set `expect_stdout`. -/
def finishStdout (st : AState) : Option Line :=
  if st.expect_stdout_json.isSome && st.expect_stdout = none then st.expect_stdout_json
  else st.expect_stdout

/-- The outer file loop of `parse_spec_file` (lines 16-151), fueled like
`annotLoopF`. -/
def parseLoopF : Nat → List Line → List TestCase
  | 0, _ => []
  | _ + 1, [] => []
  | fuel + 1, l :: rest =>
    if pyStartswith "#### ".toList l then
      -- line 21
      let name := pyStrip (l.drop 5)
      -- lines 22-29: the body loop collects every line up to the first
      -- line starting with "## " (a "#### " header does NOT stop it)
      let codeLines := rest.takeWhile (fun s => !pyStartswith "## ".toList s)
      let rest1 := rest.dropWhile (fun s => !pyStartswith "## ".toList s)
      -- lines 39-47: the j-loop re-truncates at "## " (a no-op here) and
      -- joins the body
      let code := (codeLines.takeWhile (fun s => !pyStartswith "## ".toList s)).flatten
      let p := annotRun ⟨code, none, none, 0, false⟩ rest1
      -- lines 140-149
      ⟨name, p.1.code, finishStdout p.1, p.1.expect_status, p.1.n_i_dash⟩ :: parseLoopF fuel p.2
    else
      -- lines 150-151
      parseLoopF fuel rest

/-- `parse_spec_file`, on the list of lines of the file (lines 12-153). -/
def parse_spec_file (lines : List Line) : List TestCase :=
  parseLoopF lines.length lines

/-- Number of case-header lines of a file (the criterion of line 20). -/
def countHeaders (lines : List Line) : Nat :=
  lines.countP (fun l => pyStartswith "#### ".toList l)

/-! ## The case runner (`run_case`, lines 156-198) -/

/-- Result of the subprocess invocation (lines 163-184): the shell binary
under test is an external collaborator, so its behaviour is an input of the
model.  `completed` carries the decoded stdout text and the return code
(negative on death by signal). -/
inductive ExecResult where
  | timeout : ExecResult
  | errored : Line → ExecResult
  | completed : Line → Int → ExecResult
deriving DecidableEq, Repr

/-- One hex digit character (lower case), for `repr`'s `\xNN` escapes. -/
def hexDigitC (n : Nat) : Char :=
  if n < 10 then Char.ofNat ('0'.toNat + n) else Char.ofNat ('a'.toNat + n - 10)

/-- Python `repr` of one character inside a string literal delimited by
`q`.  Characters at or above `0x80` are kept as-is (Python escapes
non-printable ones, which spec-file text does not contain). -/
def pyReprChar (q c : Char) : Line :=
  if c = '\\' then ['\\', '\\']
  else if c = q then ['\\', q]
  else if c = '\n' then ['\\', 'n']
  else if c = '\r' then ['\\', 'r']
  else if c = '\t' then ['\\', 't']
  else if c.toNat < 32 || c.toNat = 127 then
    ['\\', 'x', hexDigitC (c.toNat / 16 % 16), hexDigitC (c.toNat % 16)]
  else [c]

/-- Python `repr` of a string (used by the `{...!r}` f-string at line 192):
single quotes unless the text contains `'` but no `"`. -/
def pyRepr (s : Line) : Line :=
  let q := if s.contains '\'' && !s.contains '"' then '"' else '\''
  q :: s.flatMap (pyReprChar q) ++ [q]

/-- Decimal digits of a natural number (fueled division recursion). -/
def natStrF : Nat → Nat → Line
  | 0, _ => []
  | fuel + 1, n =>
    if n < 10 then [Char.ofNat ('0'.toNat + n)]
    else natStrF fuel (n / 10) ++ [Char.ofNat ('0'.toNat + n % 10)]

/-- Python `str` of a non-negative integer. -/
def nat_str (n : Nat) : Line := natStrF (n + 1) n

/-- Python `str` of an integer (return codes can be negative). -/
def int_str (i : Int) : Line :=
  if i < 0 then '-' :: nat_str i.natAbs else nat_str i.toNat

/-- Python `"; ".join(errors)` (line 197). -/
def joinSemi : List Line → Line
  | [] => []
  | [x] => x
  | x :: xs => x ++ "; ".toList ++ joinSemi xs

/-- The f-string of line 192:
`f"stdout: expected {case['expect_stdout']!r}, got {stdout!r}"`. -/
def stdoutDiag (e got : Line) : Line :=
  "stdout: expected ".toList ++ pyRepr e ++ ", got ".toList ++ pyRepr got

/-- The f-string of line 194:
`f"status: expected {case['expect_status']}, got {status}"`. -/
def statusDiag (e : Nat) (got : Int) : Line :=
  "status: expected ".toList ++ nat_str e ++ ", got ".toList ++ int_str got

/-- `run_case` (lines 156-198): outcome token and diagnostic message.
The temporary-file plumbing has no observable effect on the result.  Note
the order faithful to the source: the subprocess runs (and its timeout or
launch failure returns) BEFORE the `n_i_dash` flag is consulted at
line 186. -/
def run_case (c : TestCase) (r : ExecResult) : String × Line :=
  match r with
  | .timeout => ("TIMEOUT", "timed out".toList)          -- lines 179-180
  | .errored e => ("ERROR", e)                           -- lines 181-182
  | .completed stdout status =>
    if c.n_i_dash then
      ("N-I", "not implemented in dash".toList)          -- lines 186-187
    else
      -- lines 189-194
      let errors : List Line :=
        (match c.expect_stdout with
         | some e => if stdout ≠ e then [stdoutDiag e stdout] else []
         | none => []) ++
        (if status ≠ (c.expect_status : Int) then
           [statusDiag c.expect_status status]
         else [])
      -- lines 196-198
      if !errors.isEmpty then ("FAIL", joinSemi errors) else ("PASS", [])

/-! ## The report aggregation and exit status (`main`, lines 201-248) -/

/-- The five counters of `main` (lines 210-214). -/
structure Counts where
  passed : Nat
  failed : Nat
  ni : Nat
  errors : Nat
  timeouts : Nat
deriving DecidableEq, Repr

/-- One iteration of the tally loop (lines 217-231), on the outcome token. -/
def tallyStep (c : Counts) (res : String) : Counts :=
  if res = "PASS" then { c with passed := c.passed + 1 }
  else if res = "N-I" then { c with ni := c.ni + 1 }
  else if res = "TIMEOUT" then { c with timeouts := c.timeouts + 1 }
  else if res = "ERROR" then { c with errors := c.errors + 1 }
  else { c with failed := c.failed + 1 }

/-- The tally loop over the per-case outcome tokens. -/
def tallyOutcomes (rs : List String) : Counts :=
  rs.foldl tallyStep ⟨0, 0, 0, 0, 0⟩

/-- The `total` of the summary line (line 233). -/
def summary_total (c : Counts) : Nat :=
  c.passed + c.failed + c.ni + c.errors + c.timeouts

/-- The value `main` returns (line 244). -/
def main_return (c : Counts) : Nat :=
  if c.failed = 0 && c.errors = 0 && c.timeouts = 0 then 0 else 1

/-- The process exit status of the script on a spec-file run.  Lines
247-248 read `if __name__ == "__main__": main()`: the value returned by
`main` is computed and then discarded, no `sys.exit` is applied to it, so
the interpreter exits with status 0 whatever the outcomes were. -/
def script_exit (rs : List String) : Nat :=
  let _ := main_return (tallyOutcomes rs)
  0

/-! ## Loop infrastructure lemmas -/

theorem captureBlock_suffix (ls : List Line) : (captureBlock ls).2 <:+ ls := by
  have h := List.dropWhile_suffix (l := ls) (p := keepCapturing)
  unfold captureBlock
  cases hd : ls.dropWhile keepCapturing with
  | nil =>
    rw [hd] at h
    exact List.nil_suffix
  | cons l rs =>
    rw [hd] at h
    show (if pyStartswith "## END".toList l = true then rs else l :: rs) <:+ ls
    split_ifs
    · exact (List.suffix_cons l rs).trans h
    · exact h

theorem captureBlock_length_le (ls : List Line) : (captureBlock ls).2.length ≤ ls.length :=
  (captureBlock_suffix ls).length_le

/-- The fuel argument of `annotLoopF` is irrelevant above the list length:
every iteration of the loop consumes at least one line. -/
theorem annotLoopF_fuel_irrel :
    ∀ (f g : Nat) (st : AState) (ls : List Line),
      ls.length ≤ f → ls.length ≤ g → annotLoopF f st ls = annotLoopF g st ls := by
  intro f
  induction f with
  | zero =>
    intro g st ls hf _
    have : ls = [] := List.length_eq_zero.mp (Nat.le_zero.mp hf)
    subst this
    cases g <;> rfl
  | succ f ih =>
    intro g st ls hf hg
    cases ls with
    | nil => cases g <;> rfl
    | cons l rest =>
      cases g with
      | zero => exact absurd hg (by simp)
      | succ g =>
        have hrf : rest.length ≤ f := by simpa using hf
        have hrg : rest.length ≤ g := by simpa using hg
        have hcf : (captureBlock rest).2.length ≤ f :=
          le_trans (captureBlock_length_le rest) hrf
        have hcg : (captureBlock rest).2.length ≤ g :=
          le_trans (captureBlock_length_le rest) hrg
        simp only [annotLoopF]
        split_ifs <;>
          first
            | rfl
            | exact ih g _ _ hcf hcg
            | exact ih g _ _ hrf hrg

theorem annotLoopF_fuel_ge (f : Nat) (st : AState) (ls : List Line)
    (h : ls.length ≤ f) : annotLoopF f st ls = annotRun st ls :=
  annotLoopF_fuel_irrel f ls.length st ls h le_rfl

/-- One iteration of the annotation loop, expressed on `annotRun`. -/
theorem annotRun_cons (st : AState) (l : Line) (rest : List Line) :
    annotRun st (l :: rest) =
      (let ln := rstripNl l
       if pyStartswith "#### ".toList ln then (st, l :: rest)
       else if pyStartswith "## STDOUT:".toList ln then
         annotRun { st with expect_stdout := some (captureBlock rest).1 } (captureBlock rest).2
       else if matchB ln then
         annotRun { st with expect_stdout := some (captureBlock rest).1 } (captureBlock rest).2
       else if matchC ln then
         annotRun { st with n_i_dash := true } (captureBlock rest).2
       else if matchDpos ln && !matchDneg ln then
         annotRun st (captureBlock rest).2
       else
         annotRun (applyInline st ln) rest) := by
  show annotLoopF (l :: rest).length st (l :: rest) = _
  simp only [List.length_cons, annotLoopF]
  split_ifs <;>
    first
      | rfl
      | exact annotLoopF_fuel_ge _ _ _ (captureBlock_length_le rest)

theorem annotLoopF_suffix :
    ∀ (f : Nat) (st : AState) (ls : List Line), (annotLoopF f st ls).2 <:+ ls := by
  intro f
  induction f with
  | zero => intro st ls; exact List.suffix_refl ls
  | succ f ih =>
    intro st ls
    cases ls with
    | nil => exact List.suffix_refl []
    | cons l rest =>
      have hcap : (captureBlock rest).2 <:+ l :: rest :=
        (captureBlock_suffix rest).trans (List.suffix_cons l rest)
      simp only [annotLoopF]
      split_ifs <;>
        first
          | exact List.suffix_refl _
          | exact ((ih _ _).trans hcap)
          | exact ((ih _ _).trans (List.suffix_cons l rest))

theorem countHeaders_cons (l : Line) (ls : List Line) :
    countHeaders (l :: ls) =
      countHeaders ls + if pyStartswith "#### ".toList l = true then 1 else 0 := by
  unfold countHeaders
  rw [List.countP_cons]

/-- Each parsed case consumes exactly one case-header line, and possibly
swallows further ones, so the case count never exceeds the header count. -/
theorem parseLoopF_length_le :
    ∀ (f : Nat) (ls : List Line), (parseLoopF f ls).length ≤ countHeaders ls := by
  intro f
  induction f with
  | zero => intro ls; simp [parseLoopF]
  | succ f ih =>
    intro ls
    cases ls with
    | nil => simp [parseLoopF]
    | cons l rest =>
      by_cases hh : pyStartswith "#### ".toList l = true
      · have hrest2 :
            (annotRun ⟨(((rest.takeWhile (fun s => !pyStartswith "## ".toList s)).takeWhile
                (fun s => !pyStartswith "## ".toList s)).flatten), none, none, 0, false⟩
              (rest.dropWhile (fun s => !pyStartswith "## ".toList s))).2 <:+ rest := by
          exact (annotLoopF_suffix _ _ _).trans (List.dropWhile_suffix _)
        have hcount := (hrest2.countP_le (fun l => pyStartswith "#### ".toList l))
        simp only [parseLoopF, hh, if_true, List.length_cons]
        calc _ ≤ countHeaders (annotRun _ _).2 + 1 := by
              exact Nat.succ_le_succ (ih _)
          _ ≤ countHeaders rest + 1 := Nat.succ_le_succ hcount
          _ = countHeaders (l :: rest) := by
              rw [countHeaders_cons, if_pos hh]
      · have : countHeaders rest ≤ countHeaders (l :: rest) := by
          rw [countHeaders_cons]
          omega
        simp only [parseLoopF, hh, if_false]
        exact le_trans (ih rest) this

/-- Every outcome token increments exactly one of the five counters. -/
theorem summary_total_tallyStep (c : Counts) (o : String) :
    summary_total (tallyStep c o) = summary_total c + 1 := by
  unfold tallyStep summary_total
  split_ifs <;> simp <;> omega

theorem summary_total_foldl :
    ∀ (outs : List String) (c : Counts),
      summary_total (List.foldl tallyStep c outs) = summary_total c + outs.length := by
  intro outs
  induction outs with
  | nil => intro c; simp
  | cons o rest ih =>
    intro c
    simp only [List.foldl_cons, List.length_cons]
    rw [ih, summary_total_tallyStep]
    omega

/-! ## Claims -/

/-- C1: the claim says the process exits non-zero whenever some case is
FAIL, ERROR or TIMEOUT.  The code computes that value (`main_return`) but
line 248 calls `main()` without `sys.exit`, so the return value is
discarded and the process exit status is 0 even for a file whose single
case fails: for the spec file `#### t` / `exit 1` run against a shell that
exits 1, the only outcome is FAIL, `main` returns 1, yet the script's exit
status is 0. -/
theorem C1_exit_status_code_bug :
    (parse_spec_file ["#### t\n".toList, "exit 1\n".toList]).map
        (fun c => (run_case c (.completed [] 1)).1) = ["FAIL"] ∧
    main_return (tallyOutcomes ["FAIL"]) = 1 ∧
    script_exit ["FAIL"] = 0 := by
  decide

/-- C2 counterexample: the claim says a `not_implemented` case yields `N-I`
without executing its code and is in particular never `TIMEOUT`.  But
`run_case` consults `n_i_dash` only at line 186, after the subprocess has
run: a not-implemented case whose execution hits the timeout is classified
`TIMEOUT`, not `N-I`. -/
theorem C2_counterexample :
    run_case ⟨"t".toList, "while true; do :; done\n".toList, none, 0, true⟩ .timeout
        = ("TIMEOUT", "timed out".toList) ∧
    ("TIMEOUT" : String) ≠ "N-I" := by
  decide

/-- C2 amended: for every case with `n_i_dash = true` the code IS executed
first; if the execution completes (within the timeout, with a successful
launch) the outcome is `N-I` whatever stdout and exit status were produced,
but a timeout yields `TIMEOUT` and a launch failure yields `ERROR`. -/
theorem C2_amended_thm (c : TestCase) (h : c.n_i_dash = true) :
    (∀ (out : Line) (status : Int),
        run_case c (.completed out status) = ("N-I", "not implemented in dash".toList)) ∧
    run_case c .timeout = ("TIMEOUT", "timed out".toList) ∧
    (∀ e : Line, run_case c (.errored e) = ("ERROR", e)) := by
  refine ⟨fun out status => ?_, rfl, fun e => rfl⟩
  simp [run_case, h]

theorem C2_amended_thm_witness :
    run_case ⟨"t".toList, [], none, 3, true⟩ (.completed "boom".toList 7)
      = ("N-I", "not implemented in dash".toList) :=
  (C2_amended_thm ⟨"t".toList, [], none, 3, true⟩ rfl).1 "boom".toList 7

/-- C3 counterexample: the claim says the parser yields exactly one case
per case-header line.  But the body loop (lines 24-29) only stops at lines
starting with `"## "`, so a second `#### ` header with no intervening
annotation line is swallowed into the first case's `code`: this file has
two headers but parses to a single case. -/
theorem C3_counterexample :
    (parse_spec_file ["#### a\n".toList, "x\n".toList, "#### b\n".toList, "y\n".toList])
        = [⟨"a".toList, "x\n#### b\ny\n".toList, none, 0, false⟩] ∧
    countHeaders ["#### a\n".toList, "x\n".toList, "#### b\n".toList, "y\n".toList] = 2 := by
  decide

/-- C3 amended: each parsed case consumes exactly one case-header line and
may swallow later ones (into its body or an unterminated STDOUT capture),
so the number of parsed cases — which is exactly the `total` printed in the
summary line, since every outcome increments exactly one counter — is at
most, but not always equal to, the number of case-header lines. -/
theorem C3_amended_thm :
    (∀ lines : List Line, (parse_spec_file lines).length ≤ countHeaders lines) ∧
    (∀ outs : List String, summary_total (tallyOutcomes outs) = outs.length) := by
  constructor
  · intro lines
    exact parseLoopF_length_le lines.length lines
  · intro outs
    unfold tallyOutcomes
    rw [summary_total_foldl]
    simp [summary_total]

/-- C4 counterexample: the claim says later generic STDOUT blocks never
overwrite an already-set `expected_stdout`.  But line 59 assigns the block
unconditionally: here `## stdout: a` sets the expectation first, and the
later generic STDOUT block replaces it with `b\n`. -/
theorem C4_counterexample :
    parse_spec_file ["#### t\n".toList, "## stdout: a\n".toList, "## STDOUT:\n".toList,
        "b\n".toList, "## END\n".toList]
      = [⟨"t".toList, [], some "b\n".toList, 0, false⟩] ∧
    "b\n".toList ≠ "a\n".toList := by
  decide

/-- C4 amended: inline `stdout:` annotations use first-wins semantics (they
set `expected_stdout` only while it is unset), but generic STDOUT blocks,
dialect-scoped OK/BUG STDOUT blocks for the target dialect, and
target-dialect BUG/OK inline stdout annotations all overwrite any prior
value unconditionally.  Each equation holds for an arbitrary prior
accumulator state, i.e. wherever in the case the annotation appears. -/
theorem C4_amended_thm :
    (∀ (st : AState) (rest : List Line),
        annotRun st ("## stdout: a\n".toList :: rest) =
          annotRun { st with expect_stdout :=
              if st.expect_stdout = none then some "a\n".toList else st.expect_stdout } rest) ∧
    (∀ (st : AState) (rest : List Line),
        annotRun st ("## STDOUT:\n".toList :: "b\n".toList :: "## END\n".toList :: rest) =
          annotRun { st with expect_stdout := some "b\n".toList } rest) ∧
    (∀ (st : AState) (rest : List Line),
        annotRun st ("## OK dash STDOUT:\n".toList :: "d\n".toList :: "## END\n".toList :: rest) =
          annotRun { st with expect_stdout := some "d\n".toList } rest) ∧
    (∀ (st : AState) (rest : List Line),
        annotRun st ("## BUG dash stdout: c\n".toList :: rest) =
          annotRun { st with expect_stdout := some "c\n".toList } rest) := by
  refine ⟨fun st rest => ?_, fun st rest => ?_, fun st rest => ?_, fun st rest => ?_⟩ <;>
    rw [annotRun_cons] <;>
    simp [applyInline, matchA, matchB, matchC, matchDpos, matchDneg, matchE, matchF, matchG,
      matchH, matchI, matchJ, matchJstdout, matchJjson, matchJstatus, matchKhead, matchKstdout,
      matchKjson, matchL, matchM, rstripNl, pyStartswith, skipGroups, skipGroupsF, firstWsIsSpace,
      isPyWs, isWordC, isDigitC, jsonUnescape, hexVal, captureBlock, keepCapturing]
  by_cases hst : st.expect_stdout = none <;> simp [hst]

/-- C5 counterexample: the claim says a STDOUT-block capture stops at the
case boundary, so an unterminated block never consumes a following case's
header.  But the capture loop (line 56) only stops at `## END` or an
outcome-tagged line: here the block of case `a` swallows the `#### b`
header and its line, and only one case is produced from a two-header
file. -/
theorem C5_counterexample :
    parse_spec_file ["#### a\n".toList, "## STDOUT:\n".toList, "y\n".toList, "#### b\n".toList,
        "z\n".toList, "## END\n".toList]
      = [⟨"a".toList, [], some "y\n#### b\nz\n".toList, 0, false⟩] ∧
    countHeaders ["#### a\n".toList, "## STDOUT:\n".toList, "y\n".toList, "#### b\n".toList,
        "z\n".toList, "## END\n".toList] = 2 := by
  decide

/-- C5 amended: a STDOUT-block capture stops at an explicit `## END` marker
(consuming it) or at the start of another outcome-tagged line (leaving it
for the dispatcher), or at end of input — but NOT at a case-header line:
a `#### ` header inside an unterminated block is captured as block
content. -/
theorem C5_amended_thm :
    (∀ (st : AState) (rest : List Line),
        annotRun st ("## STDOUT:\n".toList :: "y\n".toList :: "## END\n".toList :: rest) =
          annotRun { st with expect_stdout := some "y\n".toList } rest) ∧
    (∀ (st : AState) (rest : List Line),
        annotRun st ("## STDOUT:\n".toList :: "y\n".toList :: "## N-I osh x\n".toList :: rest) =
          annotRun { st with expect_stdout := some "y\n".toList } rest) ∧
    (∀ (st : AState) (rest : List Line),
        annotRun st ("## STDOUT:\n".toList :: "y\n".toList :: "#### b\n".toList ::
            "## END\n".toList :: rest) =
          annotRun { st with expect_stdout := some "y\n#### b\n".toList } rest) := by
  refine ⟨fun st rest => ?_, fun st rest => ?_, fun st rest => ?_⟩
  · rw [annotRun_cons]
    simp [applyInline, matchA, matchB, matchC, matchDpos, matchDneg, matchE, matchF, matchG,
      matchH, matchI, matchJ, matchJstdout, matchJjson, matchJstatus, matchKhead, matchKstdout,
      matchKjson, matchL, matchM, rstripNl, pyStartswith, skipGroups, skipGroupsF, firstWsIsSpace,
      isPyWs, isWordC, isDigitC, jsonUnescape, hexVal, captureBlock, keepCapturing]
  · rw [annotRun_cons]
    simp only [show rstripNl "## STDOUT:\n".toList = "## STDOUT:".toList from by decide]
    simp only [show pyStartswith "#### ".toList "## STDOUT:".toList = false from by decide,
      show pyStartswith "## STDOUT:".toList "## STDOUT:".toList = true from by decide,
      Bool.false_eq_true, if_false, if_true]
    have hcap : captureBlock ("y\n".toList :: "## N-I osh x\n".toList :: rest) =
        ("y\n".toList, "## N-I osh x\n".toList :: rest) := by
      unfold captureBlock
      simp [keepCapturing, matchA, pyStartswith, firstWsIsSpace, isPyWs]
    rw [hcap]
    rw [annotRun_cons]
    simp [applyInline, matchA, matchB, matchC, matchDpos, matchDneg, matchE, matchF, matchG,
      matchH, matchI, matchJ, matchJstdout, matchJjson, matchJstatus, matchKhead, matchKstdout,
      matchKjson, matchL, matchM, rstripNl, pyStartswith, skipGroups, skipGroupsF, firstWsIsSpace,
      isPyWs, isWordC, isDigitC, jsonUnescape, hexVal, captureBlock, keepCapturing]
  · rw [annotRun_cons]
    simp [applyInline, matchA, matchB, matchC, matchDpos, matchDneg, matchE, matchF, matchG,
      matchH, matchI, matchJ, matchJstdout, matchJjson, matchJstatus, matchKhead, matchKstdout,
      matchKjson, matchL, matchM, rstripNl, pyStartswith, skipGroups, skipGroupsF, firstWsIsSpace,
      isPyWs, isWordC, isDigitC, jsonUnescape, hexVal, captureBlock, keepCapturing]

/-- C6 counterexample: the claim says a successfully decoded `stdout-json:`
value becomes `expected_stdout` whenever no `stdout:` annotation has
ALREADY set a value.  Here the json annotation comes first and decodes
successfully (to `x`), no `stdout:` preceded it — yet a LATER `## stdout: y`
wins, because the decoded value is parked in `expect_stdout_json` and only
promoted at end of case (line 140) if `expect_stdout` is still unset. -/
theorem C6_counterexample :
    parse_spec_file ["#### t\n".toList, "## stdout-json: \"x\"\n".toList,
        "## stdout: y\n".toList]
      = [⟨"t".toList, [], some "y\n".toList, 0, false⟩] ∧
    jsonUnescape "x".toList = some "x".toList ∧
    "y\n".toList ≠ "x".toList := by
  decide

/-- C6 amended: a `stdout-json:` line whose decode fails is ignored
entirely; a successful decode is recorded in the pending
`expect_stdout_json` slot only while `expected_stdout` is still unset, and
that pending value becomes `expected_stdout` only if, at the END of the
case, no other annotation (e.g. a `stdout:` line before OR after it) has
set `expected_stdout`. -/
theorem C6_amended_thm :
    (∀ (st : AState) (rest : List Line),
        annotRun st ("## stdout-json: \"\\q\"\n".toList :: rest) = annotRun st rest) ∧
    (∀ (st : AState) (rest : List Line),
        annotRun st ("## stdout-json: \"x\"\n".toList :: rest) =
          annotRun { st with expect_stdout_json :=
              if st.expect_stdout = none then some "x".toList
              else st.expect_stdout_json } rest) ∧
    parse_spec_file ["#### t\n".toList, "## stdout-json: \"x\"\n".toList]
      = [⟨"t".toList, [], some "x".toList, 0, false⟩] ∧
    parse_spec_file ["#### t\n".toList, "## stdout-json: \"x\"\n".toList,
        "## stdout: y\n".toList]
      = [⟨"t".toList, [], some "y\n".toList, 0, false⟩] := by
  refine ⟨fun st rest => ?_, fun st rest => ?_, by decide, by decide⟩
  · rw [annotRun_cons]
    simp [applyInline, matchA, matchB, matchC, matchDpos, matchDneg, matchE, matchF, matchG,
      matchH, matchI, matchJ, matchJstdout, matchJjson, matchJstatus, matchKhead, matchKstdout,
      matchKjson, matchL, matchM, rstripNl, pyStartswith, skipGroups, skipGroupsF, firstWsIsSpace,
      isPyWs, isWordC, isDigitC, jsonUnescape, hexVal, captureBlock, keepCapturing]
  · rw [annotRun_cons]
    simp [applyInline, matchA, matchB, matchC, matchDpos, matchDneg, matchE, matchF, matchG,
      matchH, matchI, matchJ, matchJstdout, matchJjson, matchJstatus, matchKhead, matchKstdout,
      matchKjson, matchL, matchM, rstripNl, pyStartswith, skipGroups, skipGroupsF, firstWsIsSpace,
      isPyWs, isWordC, isDigitC, jsonUnescape, hexVal, captureBlock, keepCapturing]
    by_cases hst : st.expect_stdout = none <;> simp [hst]

/-- C7: for an executed (non-not-implemented) case that launches and
finishes within the timeout, the outcome is `FAIL` exactly when the
decoded stdout differs from a present `expected_stdout`, or the observed
status differs from `expected_status` (stdout is never compared when
`expected_stdout` is `None`); otherwise the outcome is `PASS` with an empty
diagnostic; and the `FAIL` diagnostic names each mismatched field with its
expected and actual value (`stdoutDiag` / `statusDiag`, joined with `"; "`
when both mismatch). -/
theorem C7_runner_comparison (c : TestCase) (out : Line) (status : Int)
    (h : c.n_i_dash = false) :
    ((run_case c (.completed out status)).1 = "FAIL" ↔
      ((∃ e, c.expect_stdout = some e ∧ out ≠ e) ∨ status ≠ (c.expect_status : Int))) ∧
    ((run_case c (.completed out status)).1 = "FAIL" ∨
      run_case c (.completed out status) = ("PASS", [])) ∧
    (∀ e, c.expect_stdout = some e → out ≠ e → status = (c.expect_status : Int) →
      run_case c (.completed out status) = ("FAIL", stdoutDiag e out)) ∧
    ((c.expect_stdout = none ∨ c.expect_stdout = some out) → status ≠ (c.expect_status : Int) →
      run_case c (.completed out status) = ("FAIL", statusDiag c.expect_status status)) ∧
    (∀ e, c.expect_stdout = some e → out ≠ e → status ≠ (c.expect_status : Int) →
      run_case c (.completed out status) =
        ("FAIL", stdoutDiag e out ++ "; ".toList ++ statusDiag c.expect_status status)) := by
  unfold run_case
  simp only [h, Bool.false_eq_true, if_false]
  cases hs : c.expect_stdout with
  | none =>
    by_cases hst : status = (c.expect_status : Int) <;>
      simp [hs, hst, joinSemi]
  | some e =>
    by_cases ho : out = e
    · subst ho
      by_cases hst : status = (c.expect_status : Int) <;>
        simp [hs, hst, joinSemi]
    · have ho' : ¬e = out := fun hh => ho hh.symm
      by_cases hst : status = (c.expect_status : Int) <;>
        simp [hs, ho, ho', hst, joinSemi]

theorem C7_runner_comparison_witness :
    run_case ⟨"t".toList, "echo hi\n".toList, some "hi\n".toList, 0, false⟩
        (.completed "ho\n".toList 0)
      = ("FAIL", stdoutDiag "hi\n".toList "ho\n".toList) :=
  (C7_runner_comparison ⟨"t".toList, "echo hi\n".toList, some "hi\n".toList, 0, false⟩
      "ho\n".toList 0 rfl).2.2.1 "hi\n".toList rfl (by decide) (by decide)

theorem parseLoopF_nil (f : Nat) : parseLoopF f [] = [] := by
  cases f <;> rfl

/-- C8: a case with no annotation lines at all keeps its body as `code` and
yields `expected_stdout = none` and `expected_status = 0` (and no
not-implemented flag); and each plain `## status:` annotation overwrites
the current `expected_status` unconditionally — for an arbitrary prior
accumulator state — so with several of them the last one wins, and the
value is 0 when there is none. -/
theorem C8_defaults_and_status :
    (∀ (body : List Line), (∀ l ∈ body, pyStartswith "## ".toList l = false) →
        parse_spec_file ("#### t\n".toList :: body) =
          [⟨"t".toList, body.flatten, none, 0, false⟩]) ∧
    (∀ (st : AState) (rest : List Line),
        annotRun st ("## status: 7\n".toList :: rest) =
          annotRun { st with expect_status := 7 } rest) ∧
    (∀ (st : AState) (rest : List Line),
        annotRun st ("## status: 7\n".toList :: "## status: 12\n".toList :: rest) =
          annotRun { st with expect_status := 12 } rest) := by
  refine ⟨fun body hb => ?_, fun st rest => ?_, fun st rest => ?_⟩
  · have htake : body.takeWhile (fun s => !pyStartswith "## ".toList s) = body :=
      List.takeWhile_eq_self_iff.mpr (fun l hl => by simpa using hb l hl)
    have hdrop : body.dropWhile (fun s => !pyStartswith "## ".toList s) = [] :=
      List.dropWhile_eq_nil_iff.mpr (fun l hl => by simpa using hb l hl)
    unfold parse_spec_file
    simp only [List.length_cons, parseLoopF]
    rw [if_pos (by decide : pyStartswith "#### ".toList "#### t\n".toList = true)]
    rw [htake, hdrop]
    rw [htake]
    simp only [show pyStrip ("#### t\n".toList.drop 5) = "t".toList from by decide]
    rw [show (annotRun ⟨body.flatten, none, none, 0, false⟩ [] : AState × List Line) =
        (⟨body.flatten, none, none, 0, false⟩, []) from rfl]
    rw [parseLoopF_nil]
    rfl
  · rw [annotRun_cons]
    simp [applyInline, matchA, matchB, matchC, matchDpos, matchDneg, matchE, matchF, matchG,
      matchH, matchI, matchJ, matchJstdout, matchJjson, matchJstatus, matchKhead, matchKstdout,
      matchKjson, matchL, matchM, rstripNl, pyStartswith, skipGroups, skipGroupsF, firstWsIsSpace,
      isPyWs, isWordC, isDigitC, jsonUnescape, hexVal, captureBlock, keepCapturing,
      show digitsToNat ['7'] = 7 from by decide]
  · rw [annotRun_cons]
    simp only [show rstripNl "## status: 7\n".toList = "## status: 7".toList from by decide]
    rw [annotRun_cons]
    simp [applyInline, matchA, matchB, matchC, matchDpos, matchDneg, matchE, matchF, matchG,
      matchH, matchI, matchJ, matchJstdout, matchJjson, matchJstatus, matchKhead, matchKstdout,
      matchKjson, matchL, matchM, rstripNl, pyStartswith, skipGroups, skipGroupsF, firstWsIsSpace,
      isPyWs, isWordC, isDigitC, jsonUnescape, hexVal, captureBlock, keepCapturing,
      show digitsToNat ['7'] = 7 from by decide, show digitsToNat ['1', '2'] = 12 from by decide]

theorem C8_defaults_and_status_witness :
    parse_spec_file ["#### t\n".toList, "echo hi\n".toList] =
      [⟨"t".toList, "echo hi\n".toList, none, 0, false⟩] := by
  have h := C8_defaults_and_status.1 ["echo hi\n".toList] (by decide)
  simpa using h

/-- C9: the parser is a total function of the line list (its Lean embedding
is defined by structural recursion, mirroring the index loops that always
advance), and it never aborts: any line that matches no recognized
annotation form — neither a case header, a STDOUT-block opener, a
dialect-scoped block opener, nor any of the single-line annotation
patterns — is skipped without changing the accumulated case state, and
parsing continues with the remaining lines; likewise a non-header line at
top level is skipped. -/
theorem C9_malformed_lines_skipped :
    (∀ (st : AState) (l : Line) (rest : List Line),
        pyStartswith "#### ".toList (rstripNl l) = false →
        pyStartswith "## STDOUT:".toList (rstripNl l) = false →
        matchB (rstripNl l) = false →
        matchC (rstripNl l) = false →
        matchDpos (rstripNl l) = false →
        matchE (rstripNl l) = false →
        matchF (rstripNl l) = none →
        matchG (rstripNl l) = none →
        matchH (rstripNl l) = none →
        matchI (rstripNl l) = none →
        matchJ (rstripNl l) = false →
        matchKhead (rstripNl l) = false →
        matchL (rstripNl l) = none →
        matchM (rstripNl l) = none →
        annotRun st (l :: rest) = annotRun st rest) ∧
    (∀ (l : Line) (rest : List Line),
        pyStartswith "#### ".toList l = false →
        parse_spec_file (l :: rest) = parse_spec_file rest) := by
  constructor
  · intro st l rest h1 h2 h3 h4 h5 h6 h7 h8 h9 h10 h11 h12 h13 h14
    rw [annotRun_cons]
    simp only [h1, h2, h3, h4, h5, Bool.false_and, Bool.false_eq_true, if_false]
    have : applyInline st (rstripNl l) = st := by
      unfold applyInline
      simp [h6, h7, h8, h9, h10, h11, h12, h13, h14]
    rw [this]
  · intro l rest h
    unfold parse_spec_file
    simp only [List.length_cons, parseLoopF, h, Bool.false_eq_true, if_false]

theorem C9_malformed_lines_skipped_witness :
    annotRun ⟨[], none, none, 0, false⟩
        ["## status: 12abc\n".toList, "## status: 7\n".toList] =
      annotRun ⟨[], none, none, 0, false⟩ ["## status: 7\n".toList] :=
  C9_malformed_lines_skipped.1 ⟨[], none, none, 0, false⟩ "## status: 12abc\n".toList
    ["## status: 7\n".toList] (by decide) (by decide) (by decide) (by decide) (by decide)
    (by decide) (by decide) (by decide) (by decide) (by decide) (by decide) (by decide)
    (by decide) (by decide)

/-- C10: a `## code:` inline annotation replaces the case's `code` with the
annotation's argument followed by exactly one newline, unconditionally and
whatever the prior accumulator state (so wherever it appears in the case it
replaces the multi-line body entirely), and hence the script text executed
for such a case ends in a newline. -/
theorem C10_code_annotation :
    (∀ (st : AState) (rest : List Line),
        annotRun st ("## code: echo hi\n".toList :: rest) =
          annotRun { st with code := "echo hi\n".toList } rest) ∧
    parse_spec_file ["#### t\n".toList, "old line 1\n".toList, "old line 2\n".toList,
        "## code: exit 5\n".toList]
      = [⟨"t".toList, "exit 5\n".toList, none, 0, false⟩] ∧
    ("exit 5\n".toList).getLast? = some '\n' := by
  refine ⟨fun st rest => ?_, by decide, by decide⟩
  rw [annotRun_cons]
  simp [applyInline, matchA, matchB, matchC, matchDpos, matchDneg, matchE, matchF, matchG,
    matchH, matchI, matchJ, matchJstdout, matchJjson, matchJstatus, matchKhead, matchKstdout,
    matchKjson, matchL, matchM, rstripNl, pyStartswith, skipGroups, skipGroupsF, firstWsIsSpace,
    isPyWs, isWordC, isDigitC, jsonUnescape, hexVal, captureBlock, keepCapturing]
